import Mathlib

/-!
Verification of the privacy_circuits crates (membership, continuity,
unlinkability) of the privacy-protocol-toolkit-p2p repository.

The BN254 scalar field `Fr` is modelled as `ZMod frModulus`.  The Poseidon
sponge (`PoseidonSponge` of the external `ark_sponge` crate) is an external
library; every definition that calls `poseidon_hash_native(params, inputs)`
in the source is parameterized here by an abstract hash function
`H : List Fr → Fr` standing for that sponge applied with the fixed
`poseidon_params()` configuration.  All schema validation, byte
encoding/decoding, circuit synthesis and orchestration logic is translated
directly from the Rust source.
-/

/-- Order of the BN254 (alt_bn128) scalar field, the modulus of `ark_bn254::Fr`. -/
def frModulus : ℕ :=
  21888242871839275222246405745257275088548364400416034343698204186575808495617

/-- The BN254 scalar field `ark_bn254::Fr`. -/
abbrev Fr := ZMod frModulus

instance : NeZero frModulus := ⟨by norm_num [frModulus]⟩

/-- Big-endian interpretation of a byte list as a natural number. -/
def beBytesToNat (bytes : List ℕ) : ℕ :=
  bytes.foldl (fun acc b => acc * 256 + b) 0

/-- `Fr::from_be_bytes_mod_order`: big-endian bytes reduced modulo the field order. -/
def fr_from_be_bytes_mod_order (bytes : List ℕ) : Fr :=
  (beBytesToNat bytes : Fr)

namespace MembershipSnark

/-- `FIELD_BYTES` constant of the membership crate. -/
def FIELD_BYTES : ℕ := 32

/-- `fr_from_bytes` of the membership crate: errors on empty input and on
more than `FIELD_BYTES` bytes, otherwise decodes big-endian mod order. -/
def fr_from_bytes (label : String) (bytes : List ℕ) : Except String Fr :=
  if bytes.isEmpty then
    .error (label ++ ": empty field bytes")
  else if FIELD_BYTES < bytes.length then
    .error (label ++ ": too many field bytes")
  else
    .ok (fr_from_be_bytes_mod_order bytes)

/-- `fr_to_fixed_bytes` of the membership crate.  The source computes
`value.into_bigint().to_bytes_be()` (the 32-byte big-endian encoding of the
canonical representative of a 4-limb bigint) and left-pads with zero bytes
up to `FIELD_BYTES = 32`; the result is the canonical 32-byte big-endian
encoding of the value. -/
def fr_to_fixed_bytes (v : Fr) : List ℕ :=
  (List.range 32).map (fun i => v.val / 256 ^ (31 - i) % 256)

/-- Poseidon domain tag for commitments (`DOMAIN_COMMITMENT: u64 = 1`). -/
def DOMAIN_COMMITMENT : ℕ := 1

/-- Poseidon domain tag for leaves (`DOMAIN_LEAF: u64 = 2`). -/
def DOMAIN_LEAF : ℕ := 2

/-- Poseidon domain tag for inner nodes (`DOMAIN_NODE: u64 = 3`). -/
def DOMAIN_NODE : ℕ := 3

def MEMBERSHIP_INSTANCE_VERSION_V2 : ℕ := 2

def MEMBERSHIP_STATEMENT_TYPE : ℕ := 1

def MEMBERSHIP_STATEMENT_VERSION_V2 : ℕ := 2

/-- The 32 ASCII bytes of `SNARK_MEMBERSHIP_V2_____________`. -/
def MEMBERSHIP_V2_DOMAIN_SEP : List ℕ :=
  [83, 78, 65, 82, 75, 95, 77, 69, 77, 66, 69, 82, 83, 72, 73, 80,
   95, 86, 50, 95, 95, 95, 95, 95, 95, 95, 95, 95, 95, 95, 95, 95]

/-- `membership_v2_domain_sep_fr`: the domain separator decoded as a field element. -/
def membership_v2_domain_sep_fr : Fr :=
  fr_from_be_bytes_mod_order MEMBERSHIP_V2_DOMAIN_SEP

/-- `commitment_hash(params, identity, blinding)` = `H(1, identity, blinding)`;
`H` stands for `poseidon_hash_native(params, ·)`. -/
def commitment_hash (H : List Fr → Fr) (identity blinding : Fr) : Fr :=
  H [(DOMAIN_COMMITMENT : Fr), identity, blinding]

/-- `leaf_hash(params, commitment)` = `H(2, commitment, 0)`. -/
def leaf_hash (H : List Fr → Fr) (commitment : Fr) : Fr :=
  H [(DOMAIN_LEAF : Fr), commitment, (0 : Fr)]

/-- `node_hash(params, left, right)` = `H(3, left, right)`. -/
def node_hash (H : List Fr → Fr) (left right : Fr) : Fr :=
  H [(DOMAIN_NODE : Fr), left, right]

/-- `poseidon_hash_leaf(params, leaf)` = `H(2, leaf, 0)`. -/
def poseidon_hash_leaf (H : List Fr → Fr) (leaf : Fr) : Fr :=
  H [(DOMAIN_LEAF : Fr), leaf, (0 : Fr)]

/-- `poseidon_hash_node(params, left, right)` = `H(3, left, right)`. -/
def poseidon_hash_node (H : List Fr → Fr) (left right : Fr) : Fr :=
  H [(DOMAIN_NODE : Fr), left, right]

/-- `poseidon_hash_leaf_v2(params, domain_sep, ctx_hash, commitment)`. -/
def poseidon_hash_leaf_v2 (H : List Fr → Fr) (domain_sep ctx_hash commitment : Fr) : Fr :=
  H [domain_sep, ctx_hash, commitment]

/-- Serialized v2 witness record (`MembershipWitnessV2Bytes`). -/
structure MembershipWitnessV2Bytes where
  schema_version : ℕ
  depth : ℕ
  identity_scalar : List ℕ
  blinding : List ℕ
  merkle_siblings : List (List ℕ)
  merkle_directions : List Bool

/-- Serialized v2 public inputs record (`MembershipPublicInputsV2Bytes`). -/
structure MembershipPublicInputsV2Bytes where
  schema_version : ℕ
  statement_type : ℕ
  statement_version : ℕ
  depth : ℕ
  root : List ℕ
  commitment : List ℕ
  domain_sep : List ℕ
  ctx_hash : List ℕ

/-- Serialized v2 instance record (`MembershipInstanceV2Bytes`). -/
structure MembershipInstanceV2Bytes where
  schema_version : ℕ
  public_inputs : MembershipPublicInputsV2Bytes
  witness : MembershipWitnessV2Bytes

/-- Decoded v2 witness (`MembershipWitnessV2`). -/
structure MembershipWitnessV2 where
  identity_scalar : Fr
  blinding : Fr
  merkle_path : List (Fr × Bool)
deriving DecidableEq

/-- Decoded v2 public inputs (`MembershipPublicInputsV2`). -/
structure MembershipPublicInputsV2 where
  root : Fr
  commitment : Fr
  domain_sep : Fr
  ctx_hash : Fr
deriving DecidableEq

/-- Decoded v2 instance (`MembershipInstanceV2`). -/
structure MembershipInstanceV2 where
  public_inputs : MembershipPublicInputsV2
  witness : MembershipWitnessV2
deriving DecidableEq

/-- Decoded witness (`MembershipWitness`). -/
structure MembershipWitness where
  identity_scalar : Fr
  blinding : Fr
  merkle_path : List (Fr × Bool)
deriving DecidableEq

/-- Decoded public inputs (`MembershipPublicInputs`). -/
structure MembershipPublicInputs where
  root : Fr
  commitment : Fr
deriving DecidableEq

/-- Decoded instance (`MembershipInstance`). -/
structure MembershipInstance where
  public_inputs : MembershipPublicInputs
  witness : MembershipWitness
deriving DecidableEq

/-- `ensure_version_u16`. -/
def ensure_version_u16 (label : String) (version expected : ℕ) : Except String Unit :=
  if version ≠ expected then .error (label ++ ": version mismatch") else .ok ()

/-- `ensure_statement_type_version`. -/
def ensure_statement_type_version (statement_type statement_version : ℕ) :
    Except String Unit :=
  if statement_type ≠ MEMBERSHIP_STATEMENT_TYPE then
    .error "statement_type mismatch"
  else if statement_version ≠ MEMBERSHIP_STATEMENT_VERSION_V2 then
    .error "statement_version mismatch"
  else
    .ok ()

/-- `ensure_domain_sep`. -/
def ensure_domain_sep (label : String) (domain_sep : List ℕ) : Except String Unit :=
  if domain_sep ≠ MEMBERSHIP_V2_DOMAIN_SEP then
    .error (label ++ ": domain_sep mismatch")
  else
    .ok ()

/-- `MembershipPublicInputsV2Bytes::into_public_inputs_with_depth`. -/
def MembershipPublicInputsV2Bytes.into_public_inputs_with_depth
    (b : MembershipPublicInputsV2Bytes) :
    Except String (MembershipPublicInputsV2 × ℕ) := do
  ensure_version_u16 "public_inputs.schema_version" b.schema_version
    MEMBERSHIP_INSTANCE_VERSION_V2
  ensure_statement_type_version b.statement_type b.statement_version
  ensure_domain_sep "public_inputs.domain_sep" b.domain_sep
  let depth := b.depth
  if depth = 0 then
    .error "public_inputs.depth must be positive"
  else do
    let root ← fr_from_bytes "root" b.root
    let commitment ← fr_from_bytes "commitment" b.commitment
    let domain_sep ← fr_from_bytes "domain_sep" b.domain_sep
    let ctx_hash ← fr_from_bytes "ctx_hash" b.ctx_hash
    pure ({ root, commitment, domain_sep, ctx_hash }, depth)

/-- The decoding loop of `MembershipWitnessV2Bytes::into_witness`: the source
pairs `merkle_siblings[idx]` with `merkle_directions[idx]` (after the two
length checks this is the zip of the two lists), decodes each sibling and
pushes the pair, stopping at the first decode error. -/
def decode_path : List (List ℕ × Bool) → Except String (List (Fr × Bool))
  | [] => .ok []
  | node :: rest => do
      let sibling ← fr_from_bytes "merkle_siblings" node.1
      let tail ← decode_path rest
      pure ((sibling, node.2) :: tail)

/-- `MembershipWitnessV2Bytes::into_witness`. -/
def MembershipWitnessV2Bytes.into_witness (b : MembershipWitnessV2Bytes)
    (expected_depth : ℕ) : Except String MembershipWitnessV2 := do
  ensure_version_u16 "witness.schema_version" b.schema_version
    MEMBERSHIP_INSTANCE_VERSION_V2
  if b.depth ≠ expected_depth then
    .error "witness.depth mismatch"
  else if b.merkle_siblings.length ≠ expected_depth then
    .error "merkle_siblings length mismatch"
  else if b.merkle_directions.length ≠ expected_depth then
    .error "merkle_directions length mismatch"
  else do
    let path ← decode_path (b.merkle_siblings.zip b.merkle_directions)
    let identity_scalar ← fr_from_bytes "identity_scalar" b.identity_scalar
    let blinding ← fr_from_bytes "blinding" b.blinding
    pure { identity_scalar, blinding, merkle_path := path }

/-- `MembershipInstanceV2Bytes::into_instance_with_depth`. -/
def MembershipInstanceV2Bytes.into_instance_with_depth (b : MembershipInstanceV2Bytes) :
    Except String (MembershipInstanceV2 × ℕ) := do
  ensure_version_u16 "instance.schema_version" b.schema_version
    MEMBERSHIP_INSTANCE_VERSION_V2
  let pd ← b.public_inputs.into_public_inputs_with_depth
  let public_inputs := pd.1
  let expected_depth := pd.2
  if b.witness.depth ≠ expected_depth then
    .error "instance.depth mismatch"
  else do
    let witness ← b.witness.into_witness expected_depth
    pure ({ public_inputs, witness }, expected_depth)

/-- `ark_relations::r1cs::SynthesisError`, restricted to the variants this
code produces during synthesis. -/
inductive SynthesisError where
  | Unsatisfiable
  | AssignmentMissing
deriving DecidableEq

/-- `MembershipCircuit` (specialized to `Fr`, the only field it is used at). -/
structure MembershipCircuit where
  root : Option Fr
  commitment : Option Fr
  identity_scalar : Option Fr
  blinding : Option Fr
  expected_depth : ℕ
  merkle_path : List (Option Fr × Option Bool)

/-- `MembershipCircuitV2` (specialized to `Fr`). -/
structure MembershipCircuitV2 where
  root : Option Fr
  commitment : Option Fr
  domain_sep : Option Fr
  ctx_hash : Option Fr
  identity_scalar : Option Fr
  blinding : Option Fr
  expected_depth : ℕ
  merkle_path : List (Option Fr × Option Bool)

/-- Result of running `generate_constraints` in proving mode: the values
assigned to the public-input variables in allocation order, and the pairs
registered by `enforce_equal` in registration order.  `shape` records the
Merkle depth that fixes the R1CS template of the circuit. -/
structure SynthesizedCS where
  shape : ℕ
  publicInputs : List Fr
  enforced : List (Fr × Fr)
deriving DecidableEq

/-- `cs.is_satisfied()`: every enforced equality holds under the assignment. -/
def SynthesizedCS.is_satisfied (cs : SynthesizedCS) : Bool :=
  cs.enforced.all (fun p => decide (p.1 = p.2))

/-- `value.ok_or(SynthesisError::AssignmentMissing)` on an optional assignment. -/
def optVal {α : Type} : Option α → Except SynthesisError α
  | some a => .ok a
  | none => .error .AssignmentMissing

/-- One level of the in-circuit Merkle fold:
`left = select(is_left, sibling, current)`, `right = select(is_left, current, sibling)`,
`current = H(3, left, right)`; folded over the path starting from the leaf. -/
def merkle_fold (H : List Fr → Fr) (leaf : Fr) (path : List (Fr × Bool)) : Fr :=
  path.foldl
    (fun current node =>
      let left := if node.2 then node.1 else current
      let right := if node.2 then current else node.1
      H [(DOMAIN_NODE : Fr), left, right])
    leaf

/-- The per-level loop body shared by both membership circuits: allocate the
sibling and direction witnesses and update the accumulator with
`left = select(is_left, sibling, current)`, `right = select(is_left, current, sibling)`,
`current = H(3, left, right)`. -/
def merkle_loop (H : List Fr → Fr) :
    Fr → List (Option Fr × Option Bool) → Except SynthesisError Fr
  | current, [] => .ok current
  | current, node :: rest => do
      let sibling ← optVal node.1
      let is_left ← optVal node.2
      let left := if is_left then sibling else current
      let right := if is_left then current else sibling
      merkle_loop H (H [(DOMAIN_NODE : Fr), left, right]) rest

/-- `MembershipCircuit::generate_constraints`. -/
def MembershipCircuit.generate_constraints (H : List Fr → Fr) (c : MembershipCircuit) :
    Except SynthesisError SynthesizedCS := do
  if c.expected_depth = 0 ∨ c.merkle_path.length ≠ c.expected_depth then
    .error .Unsatisfiable
  else do
    let root ← optVal c.root
    let commitment_input ← optVal c.commitment
    let identity_scalar ← optVal c.identity_scalar
    let blinding ← optVal c.blinding
    let commitment := H [(DOMAIN_COMMITMENT : Fr), identity_scalar, blinding]
    let leaf := H [(DOMAIN_LEAF : Fr), commitment, (0 : Fr)]
    let current ← merkle_loop H leaf c.merkle_path
    pure { shape := c.expected_depth,
           publicInputs := [root, commitment_input],
           enforced := [(commitment, commitment_input), (current, root)] }

/-- `MembershipCircuitV2::generate_constraints`. -/
def MembershipCircuitV2.generate_constraints (H : List Fr → Fr) (c : MembershipCircuitV2) :
    Except SynthesisError SynthesizedCS := do
  if c.expected_depth = 0 ∨ c.merkle_path.length ≠ c.expected_depth then
    .error .Unsatisfiable
  else do
    let root ← optVal c.root
    let commitment_input ← optVal c.commitment
    let domain_sep ← optVal c.domain_sep
    let ctx_hash ← optVal c.ctx_hash
    let identity_scalar ← optVal c.identity_scalar
    let blinding ← optVal c.blinding
    let commitment := H [(DOMAIN_COMMITMENT : Fr), identity_scalar, blinding]
    let leaf := H [domain_sep, ctx_hash, commitment]
    let current ← merkle_loop H leaf c.merkle_path
    pure { shape := c.expected_depth,
           publicInputs := [root, commitment_input, domain_sep, ctx_hash],
           enforced := [(commitment, commitment_input),
                        (domain_sep, membership_v2_domain_sep_fr),
                        (current, root)] }

/-- `build_circuit`. -/
def build_circuit (inst : MembershipInstance) : MembershipCircuit :=
  { root := some inst.public_inputs.root,
    commitment := some inst.public_inputs.commitment,
    identity_scalar := some inst.witness.identity_scalar,
    blinding := some inst.witness.blinding,
    expected_depth := inst.witness.merkle_path.length,
    merkle_path := inst.witness.merkle_path.map (fun node => (some node.1, some node.2)) }

/-- Modelled from the spec: `ark_groth16::Groth16<Bn254>` is an external
trusted library (spec section 1: treated as a trusted external library whose
interface is declared in section 6).  A backend provides setup, proving and
verification over synthesized membership constraint systems; `completeness`
is the standard Groth16 completeness guarantee stated by the spec (section
8): a proof produced from an assignment satisfying the constraints of a
circuit of the same shape as the setup circuit verifies against the
public-input assignment of the proving circuit. -/
structure SnarkBackend where
  PK : Type
  VK : Type
  Proof : Type
  RNG : Type
  generate_random_parameters : SynthesizedCS → RNG → PK
  vk_of : PK → VK
  create_random_proof : SynthesizedCS → PK → RNG → Proof
  verify_proof : VK → Proof → List Fr → Bool
  completeness : ∀ (csSetup csProve : SynthesizedCS) (r1 r2 : RNG),
    csProve.is_satisfied = true →
    csSetup.shape = csProve.shape →
    verify_proof (vk_of (generate_random_parameters csSetup r1))
      (create_random_proof csProve (generate_random_parameters csSetup r1) r2)
      csProve.publicInputs = true

/-- `setup_membership_with_depth`: synthesize the zero-filled dummy circuit
of the requested depth and hand it to the Groth16 parameter generator. -/
def setup_membership_with_depth (B : SnarkBackend) (H : List Fr → Fr)
    (rng : B.RNG) (depth : ℕ) : Except SynthesisError B.PK := do
  let cs ← MembershipCircuit.generate_constraints H
    { root := some 0, commitment := some 0, identity_scalar := some 0,
      blinding := some 0, expected_depth := depth,
      merkle_path := List.replicate depth (some 0, some false) }
  pure (B.generate_random_parameters cs rng)

/-- `prove_membership`. -/
def prove_membership (B : SnarkBackend) (H : List Fr → Fr) (pk : B.PK)
    (inst : MembershipInstance) (rng : B.RNG) : Except SynthesisError B.Proof := do
  let cs ← (build_circuit inst).generate_constraints H
  pure (B.create_random_proof cs pk rng)

/-- `verify_membership`: the public-input vector is `[root, commitment]`. -/
def verify_membership (B : SnarkBackend) (vk : B.VK)
    (public_inputs : MembershipPublicInputs) (proof : B.Proof) : Bool :=
  B.verify_proof vk proof [public_inputs.root, public_inputs.commitment]

/-- A valid membership instance of depth `d` (spec section 3 invariants):
the path has length `d > 0`, the public commitment is `H(1, id, blinding)`,
and folding the Merkle path from `H(2, commitment, 0)` gives the root. -/
def MembershipInstance.valid (H : List Fr → Fr) (inst : MembershipInstance)
    (depth : ℕ) : Prop :=
  0 < depth ∧
  inst.witness.merkle_path.length = depth ∧
  inst.public_inputs.commitment
    = commitment_hash H inst.witness.identity_scalar inst.witness.blinding ∧
  inst.public_inputs.root
    = merkle_fold H (leaf_hash H inst.public_inputs.commitment) inst.witness.merkle_path

end MembershipSnark

namespace ContinuitySnark

/-- `fr_from_fixed_bytes` of the continuity crate: the input is a fixed
32-byte array in the source; only an emptiness check precedes decoding. -/
def fr_from_fixed_bytes (label : String) (bytes : List ℕ) : Except String Fr :=
  if bytes.isEmpty then
    .error (label ++ ": empty field bytes")
  else
    .ok (fr_from_be_bytes_mod_order bytes)

def CONTINUITY_INSTANCE_VERSION_V1 : ℕ := 1

def CONTINUITY_INSTANCE_VERSION_V2 : ℕ := 2

def CONTINUITY_STATEMENT_TYPE : ℕ := 3

def CONTINUITY_STATEMENT_VERSION_V2 : ℕ := 2

/-- The 32 ASCII bytes of `CONTINUITY_SNARK_V1_____________`. -/
def CONTINUITY_V1_DOMAIN_SEP : List ℕ :=
  [67, 79, 78, 84, 73, 78, 85, 73, 84, 89, 95, 83, 78, 65, 82, 75,
   95, 86, 49, 95, 95, 95, 95, 95, 95, 95, 95, 95, 95, 95, 95, 95]

/-- The 32 ASCII bytes of `CONTINUITY_SNARK_V2_____________`. -/
def CONTINUITY_V2_DOMAIN_SEP : List ℕ :=
  [67, 79, 78, 84, 73, 78, 85, 73, 84, 89, 95, 83, 78, 65, 82, 75,
   95, 86, 50, 95, 95, 95, 95, 95, 95, 95, 95, 95, 95, 95, 95, 95]

/-- `commitment_hash_v2(params, id, r, ctx_hash)` = `H(1, id, r, ctx_hash)`
(the continuity v2 four-input commitment). -/
def commitment_hash_v2 (H : List Fr → Fr) (id r ctx_hash : Fr) : Fr :=
  H [(1 : Fr), id, r, ctx_hash]

/-- Serialized v1 instance (`ContinuityInstanceV1`); every field blob is a
fixed 32-byte array in the source. -/
structure ContinuityInstanceV1 where
  schema_version : ℕ
  id : List ℕ
  r1 : List ℕ
  r2 : List ℕ
  c1_hash : List ℕ
  c2_hash : List ℕ
  domain_sep : List ℕ

/-- Serialized v2 instance (`ContinuityInstanceV2`). -/
structure ContinuityInstanceV2 where
  schema_version : ℕ
  statement_type : ℕ
  statement_version : ℕ
  id : List ℕ
  r1 : List ℕ
  r2 : List ℕ
  c1_hash : List ℕ
  c2_hash : List ℕ
  domain_sep : List ℕ
  ctx_hash : List ℕ

/-- Decoded witness (`ContinuityWitness`). -/
structure ContinuityWitness where
  id : Fr
  r1 : Fr
  r2 : Fr
deriving DecidableEq

/-- Decoded public inputs (`ContinuityPublicInputs`). -/
structure ContinuityPublicInputs where
  c1_hash : Fr
  c2_hash : Fr
  domain_sep : Fr
deriving DecidableEq

/-- Decoded instance (`ContinuityInstance`). -/
structure ContinuityInstance where
  public_inputs : ContinuityPublicInputs
  witness : ContinuityWitness
deriving DecidableEq

/-- Decoded v2 witness (`ContinuityWitnessV2`). -/
structure ContinuityWitnessV2 where
  id : Fr
  r1 : Fr
  r2 : Fr
deriving DecidableEq

/-- Decoded v2 public inputs (`ContinuityPublicInputsV2Data`). -/
structure ContinuityPublicInputsV2Data where
  c1_hash : Fr
  c2_hash : Fr
  domain_sep : Fr
  ctx_hash : Fr
deriving DecidableEq

/-- Decoded v2 instance (`ContinuityInstanceV2Data`). -/
structure ContinuityInstanceV2Data where
  public_inputs : ContinuityPublicInputsV2Data
  witness : ContinuityWitnessV2
deriving DecidableEq

/-- `domain_sep_fr` of the continuity crate. -/
def domain_sep_fr : Fr := fr_from_be_bytes_mod_order CONTINUITY_V1_DOMAIN_SEP

/-- `domain_sep_v2_fr` of the continuity crate. -/
def domain_sep_v2_fr : Fr := fr_from_be_bytes_mod_order CONTINUITY_V2_DOMAIN_SEP

/-- `ensure_version` of the continuity schema. -/
def ensure_version (label : String) (version : ℕ) : Except String Unit :=
  if version ≠ CONTINUITY_INSTANCE_VERSION_V1 then
    .error (label ++ ": schema_version mismatch")
  else
    .ok ()

/-- `ensure_domain_sep` of the continuity schema. -/
def ensure_domain_sep (label : String) (value : List ℕ) : Except String Unit :=
  if value ≠ CONTINUITY_V1_DOMAIN_SEP then
    .error (label ++ ": domain_sep mismatch")
  else
    .ok ()

/-- `ensure_version_v2` of the continuity schema. -/
def ensure_version_v2 (label : String) (version : ℕ) : Except String Unit :=
  if version ≠ CONTINUITY_INSTANCE_VERSION_V2 then
    .error (label ++ ": schema_version mismatch")
  else
    .ok ()

/-- `ensure_statement_type_version` of the continuity schema. -/
def ensure_statement_type_version (statement_type statement_version : ℕ) :
    Except String Unit :=
  if statement_type ≠ CONTINUITY_STATEMENT_TYPE then
    .error "statement_type mismatch"
  else if statement_version ≠ CONTINUITY_STATEMENT_VERSION_V2 then
    .error "statement_version mismatch"
  else
    .ok ()

/-- `ensure_domain_sep_v2` of the continuity schema. -/
def ensure_domain_sep_v2 (label : String) (value : List ℕ) : Except String Unit :=
  if value ≠ CONTINUITY_V2_DOMAIN_SEP then
    .error (label ++ ": domain_sep mismatch")
  else
    .ok ()

/-- `ContinuityInstanceV1::into_instance`. -/
def ContinuityInstanceV1.into_instance (H : List Fr → Fr) (b : ContinuityInstanceV1) :
    Except String ContinuityInstance := do
  ensure_version "instance.schema_version" b.schema_version
  ensure_domain_sep "instance.domain_sep" b.domain_sep
  let id ← fr_from_fixed_bytes "id" b.id
  let r1 ← fr_from_fixed_bytes "r1" b.r1
  let r2 ← fr_from_fixed_bytes "r2" b.r2
  let c1_hash ← fr_from_fixed_bytes "c1_hash" b.c1_hash
  let c2_hash ← fr_from_fixed_bytes "c2_hash" b.c2_hash
  let expected_c1 := MembershipSnark.commitment_hash H id r1
  if expected_c1 ≠ c1_hash then
    .error "c1_hash does not match commitment hash"
  else do
    let expected_c2 := MembershipSnark.commitment_hash H id r2
    if expected_c2 ≠ c2_hash then
      .error "c2_hash does not match commitment hash"
    else do
      let domain_sep ← fr_from_fixed_bytes "domain_sep" b.domain_sep
      pure { public_inputs := { c1_hash, c2_hash, domain_sep },
             witness := { id, r1, r2 } }

/-- `ContinuityInstanceV2::into_instance`. -/
def ContinuityInstanceV2.into_instance (H : List Fr → Fr) (b : ContinuityInstanceV2) :
    Except String ContinuityInstanceV2Data := do
  ensure_version_v2 "instance.schema_version" b.schema_version
  ensure_statement_type_version b.statement_type b.statement_version
  ensure_domain_sep_v2 "instance.domain_sep" b.domain_sep
  let id ← fr_from_fixed_bytes "id" b.id
  let r1 ← fr_from_fixed_bytes "r1" b.r1
  let r2 ← fr_from_fixed_bytes "r2" b.r2
  let c1_hash ← fr_from_fixed_bytes "c1_hash" b.c1_hash
  let c2_hash ← fr_from_fixed_bytes "c2_hash" b.c2_hash
  let ctx_hash ← fr_from_fixed_bytes "ctx_hash" b.ctx_hash
  let expected_c1 := commitment_hash_v2 H id r1 ctx_hash
  if expected_c1 ≠ c1_hash then
    .error "c1_hash does not match commitment hash"
  else do
    let expected_c2 := commitment_hash_v2 H id r2 ctx_hash
    if expected_c2 ≠ c2_hash then
      .error "c2_hash does not match commitment hash"
    else do
      let domain_sep ← fr_from_fixed_bytes "domain_sep" b.domain_sep
      pure { public_inputs := { c1_hash, c2_hash, domain_sep, ctx_hash },
             witness := { id, r1, r2 } }

end ContinuitySnark

namespace UnlinkabilitySnark

/-- `fr_from_fixed_bytes` of the unlinkability crate (textually identical to
the continuity one). -/
def fr_from_fixed_bytes (label : String) (bytes : List ℕ) : Except String Fr :=
  if bytes.isEmpty then
    .error (label ++ ": empty field bytes")
  else
    .ok (fr_from_be_bytes_mod_order bytes)

def UNLINKABILITY_INSTANCE_VERSION_V2 : ℕ := 2

def UNLINKABILITY_STATEMENT_TYPE : ℕ := 2

def UNLINKABILITY_STATEMENT_VERSION_V2 : ℕ := 2

/-- The 32 ASCII bytes of `UNLINKABILITY_SNARK_V2__________`. -/
def UNLINKABILITY_V2_DOMAIN_SEP : List ℕ :=
  [85, 78, 76, 73, 78, 75, 65, 66, 73, 76, 73, 84, 89, 95, 83, 78,
   65, 82, 75, 95, 86, 50, 95, 95, 95, 95, 95, 95, 95, 95, 95, 95]

/-- Serialized v2 instance (`UnlinkabilityInstanceV2`). -/
structure UnlinkabilityInstanceV2 where
  schema_version : ℕ
  statement_type : ℕ
  statement_version : ℕ
  id : List ℕ
  blinding : List ℕ
  tag : List ℕ
  domain_sep : List ℕ
  ctx_hash : List ℕ

/-- Serialized v2 public inputs (`UnlinkabilityPublicInputsV2`). -/
structure UnlinkabilityPublicInputsV2 where
  schema_version : ℕ
  statement_type : ℕ
  statement_version : ℕ
  tag : List ℕ
  domain_sep : List ℕ
  ctx_hash : List ℕ

/-- Decoded witness (`UnlinkabilityWitnessV2`). -/
structure UnlinkabilityWitnessV2 where
  id : Fr
  blinding : Fr
deriving DecidableEq

/-- Decoded public inputs (`UnlinkabilityPublicInputsV2Data`). -/
structure UnlinkabilityPublicInputsV2Data where
  tag : Fr
  domain_sep : Fr
  ctx_hash : Fr
deriving DecidableEq

/-- Decoded instance (`UnlinkabilityInstanceV2Data`). -/
structure UnlinkabilityInstanceV2Data where
  public_inputs : UnlinkabilityPublicInputsV2Data
  witness : UnlinkabilityWitnessV2
deriving DecidableEq

/-- `domain_sep_v2_fr` of the unlinkability crate. -/
def domain_sep_v2_fr : Fr := fr_from_be_bytes_mod_order UNLINKABILITY_V2_DOMAIN_SEP

/-- `tag_hash(params, domain_sep, ctx_hash, commitment)`. -/
def tag_hash (H : List Fr → Fr) (domain_sep ctx_hash commitment : Fr) : Fr :=
  H [domain_sep, ctx_hash, commitment]

/-- `ensure_version_v2` of the unlinkability schema. -/
def ensure_version_v2 (label : String) (version : ℕ) : Except String Unit :=
  if version ≠ UNLINKABILITY_INSTANCE_VERSION_V2 then
    .error (label ++ ": schema_version mismatch")
  else
    .ok ()

/-- `ensure_statement_type_version` of the unlinkability schema. -/
def ensure_statement_type_version (statement_type statement_version : ℕ) :
    Except String Unit :=
  if statement_type ≠ UNLINKABILITY_STATEMENT_TYPE then
    .error "statement_type mismatch"
  else if statement_version ≠ UNLINKABILITY_STATEMENT_VERSION_V2 then
    .error "statement_version mismatch"
  else
    .ok ()

/-- `ensure_domain_sep_v2` of the unlinkability schema. -/
def ensure_domain_sep_v2 (label : String) (value : List ℕ) : Except String Unit :=
  if value ≠ UNLINKABILITY_V2_DOMAIN_SEP then
    .error (label ++ ": domain_sep mismatch")
  else
    .ok ()

/-- `UnlinkabilityInstanceV2::into_instance`. -/
def UnlinkabilityInstanceV2.into_instance (H : List Fr → Fr)
    (b : UnlinkabilityInstanceV2) : Except String UnlinkabilityInstanceV2Data := do
  ensure_version_v2 "instance.schema_version" b.schema_version
  ensure_statement_type_version b.statement_type b.statement_version
  ensure_domain_sep_v2 "instance.domain_sep" b.domain_sep
  let id ← fr_from_fixed_bytes "id" b.id
  let blinding ← fr_from_fixed_bytes "blinding" b.blinding
  let tag ← fr_from_fixed_bytes "tag" b.tag
  let ctx_hash ← fr_from_fixed_bytes "ctx_hash" b.ctx_hash
  let commitment := MembershipSnark.commitment_hash H id blinding
  let expected_tag := tag_hash H domain_sep_v2_fr ctx_hash commitment
  if expected_tag ≠ tag then
    .error "tag does not match computed value"
  else do
    let domain_sep ← fr_from_fixed_bytes "domain_sep" b.domain_sep
    pure { public_inputs := { tag, domain_sep, ctx_hash },
           witness := { id, blinding } }

/-- `build_instance_v2` of the unlinkability crate. -/
def build_instance_v2 (H : List Fr → Fr) (id blinding ctx_hash : Fr) :
    UnlinkabilityInstanceV2 × UnlinkabilityPublicInputsV2 :=
  let commitment := MembershipSnark.commitment_hash H id blinding
  let tag := tag_hash H domain_sep_v2_fr ctx_hash commitment
  let public_inputs : UnlinkabilityPublicInputsV2 :=
    { schema_version := UNLINKABILITY_INSTANCE_VERSION_V2,
      statement_type := UNLINKABILITY_STATEMENT_TYPE,
      statement_version := UNLINKABILITY_STATEMENT_VERSION_V2,
      tag := MembershipSnark.fr_to_fixed_bytes tag,
      domain_sep := UNLINKABILITY_V2_DOMAIN_SEP,
      ctx_hash := MembershipSnark.fr_to_fixed_bytes ctx_hash }
  let inst : UnlinkabilityInstanceV2 :=
    { schema_version := UNLINKABILITY_INSTANCE_VERSION_V2,
      statement_type := UNLINKABILITY_STATEMENT_TYPE,
      statement_version := UNLINKABILITY_STATEMENT_VERSION_V2,
      id := MembershipSnark.fr_to_fixed_bytes id,
      blinding := MembershipSnark.fr_to_fixed_bytes blinding,
      tag := public_inputs.tag,
      domain_sep := UNLINKABILITY_V2_DOMAIN_SEP,
      ctx_hash := public_inputs.ctx_hash }
  (inst, public_inputs)

end UnlinkabilitySnark

deriving instance DecidableEq for Except

/-- A concrete evaluable hash function (sum of the inputs) used to
instantiate the hash-parametric theorems at concrete inputs in witnesses
and counterexamples; it stands in the place of the abstract Poseidon
parameter `H`. -/
def sumHash : List Fr → Fr := fun l => l.foldl (· + ·) 0

namespace MembershipSnark

/-- A concrete SNARK backend satisfying the `SnarkBackend` interface, used
to instantiate the orchestration theorems: a proof is the synthesized
system itself and verification checks satisfaction plus the public-input
vector. -/
def trivialBackend : SnarkBackend where
  PK := SynthesizedCS
  VK := SynthesizedCS
  Proof := SynthesizedCS
  RNG := Unit
  generate_random_parameters := fun cs _ => cs
  vk_of := fun pk => pk
  create_random_proof := fun cs _ _ => cs
  verify_proof := fun _ proof inputs =>
    proof.is_satisfied && decide (inputs = proof.publicInputs)
  completeness := by
    intro csSetup csProve r1 r2 hsat _
    simp [hsat]

/-- A concrete depth-1 membership instance that is valid for `sumHash`. -/
def c2ValidInstance : MembershipInstance :=
  { public_inputs :=
      { root := merkle_fold sumHash
          (leaf_hash sumHash (commitment_hash sumHash 1 2)) [((5 : Fr), false)],
        commitment := commitment_hash sumHash 1 2 },
    witness := { identity_scalar := 1, blinding := 2, merkle_path := [((5 : Fr), false)] } }

/-- A concrete v2 membership instance record that passes every check of
`into_instance_with_depth`; its commitment field is the encoding of `5`
while its identity and blinding decode to `1` and `2`. -/
def c1AcceptedBytes : MembershipInstanceV2Bytes :=
  { schema_version := 2,
    public_inputs :=
      { schema_version := 2, statement_type := 1, statement_version := 2,
        depth := 1,
        root := fr_to_fixed_bytes 7,
        commitment := fr_to_fixed_bytes 5,
        domain_sep := MEMBERSHIP_V2_DOMAIN_SEP,
        ctx_hash := fr_to_fixed_bytes 9 },
    witness :=
      { schema_version := 2, depth := 1,
        identity_scalar := fr_to_fixed_bytes 1,
        blinding := fr_to_fixed_bytes 2,
        merkle_siblings := [fr_to_fixed_bytes 4],
        merkle_directions := [false] } }

/-- The decoded form of `c1AcceptedBytes`. -/
def c1AcceptedData : MembershipInstanceV2 :=
  { public_inputs :=
      { root := 7, commitment := 5,
        domain_sep := membership_v2_domain_sep_fr, ctx_hash := 9 },
    witness := { identity_scalar := 1, blinding := 2, merkle_path := [((4 : Fr), false)] } }

/-- Like `c1AcceptedBytes` but with the commitment field encoding `6`
instead of `5`; all other fields unchanged. -/
def c1AcceptedBytesAlt : MembershipInstanceV2Bytes :=
  { schema_version := 2,
    public_inputs :=
      { schema_version := 2, statement_type := 1, statement_version := 2,
        depth := 1,
        root := fr_to_fixed_bytes 7,
        commitment := fr_to_fixed_bytes 6,
        domain_sep := MEMBERSHIP_V2_DOMAIN_SEP,
        ctx_hash := fr_to_fixed_bytes 9 },
    witness :=
      { schema_version := 2, depth := 1,
        identity_scalar := fr_to_fixed_bytes 1,
        blinding := fr_to_fixed_bytes 2,
        merkle_siblings := [fr_to_fixed_bytes 4],
        merkle_directions := [false] } }

/-- The decoded form of `c1AcceptedBytesAlt`. -/
def c1AcceptedDataAlt : MembershipInstanceV2 :=
  { public_inputs :=
      { root := 7, commitment := 6,
        domain_sep := membership_v2_domain_sep_fr, ctx_hash := 9 },
    witness := { identity_scalar := 1, blinding := 2, merkle_path := [((4 : Fr), false)] } }

/-- The property claim C1 asserts of `into_instance_with_depth`: validation
natively recomputes the commitment `H(1, id, blinding)` and the Merkle root
folded from the leaf `H(domain_sep, ctx_hash, commitment)` and rejects any
mismatch, so every accepted instance satisfies both equations.  The hash is
existentially quantified: if the validator recomputed these derived values
with any hash function at all (in particular with the Poseidon sponge the
rest of the crate uses), this proposition would hold. -/
def membershipV2SchemaRecomputesDerived : Prop :=
  ∃ H : List Fr → Fr,
    ∀ (b : MembershipInstanceV2Bytes) (inst : MembershipInstanceV2) (d : ℕ),
      b.into_instance_with_depth = .ok (inst, d) →
      inst.public_inputs.commitment
          = commitment_hash H inst.witness.identity_scalar inst.witness.blinding ∧
      merkle_fold H
          (poseidon_hash_leaf_v2 H inst.public_inputs.domain_sep
            inst.public_inputs.ctx_hash inst.public_inputs.commitment)
          inst.witness.merkle_path
        = inst.public_inputs.root

end MembershipSnark

namespace ContinuitySnark

/-- A concrete v1 continuity instance accepted under `sumHash`:
`id = 1`, `r1 = 2`, `r2 = 3`, commitments `sumHash [1,1,2] = 4` and
`sumHash [1,1,3] = 5`. -/
def c3GoodV1 : ContinuityInstanceV1 :=
  { schema_version := 1,
    id := MembershipSnark.fr_to_fixed_bytes 1,
    r1 := MembershipSnark.fr_to_fixed_bytes 2,
    r2 := MembershipSnark.fr_to_fixed_bytes 3,
    c1_hash := MembershipSnark.fr_to_fixed_bytes (MembershipSnark.commitment_hash sumHash 1 2),
    c2_hash := MembershipSnark.fr_to_fixed_bytes (MembershipSnark.commitment_hash sumHash 1 3),
    domain_sep := CONTINUITY_V1_DOMAIN_SEP }

/-- The decoded form of `c3GoodV1`. -/
def c3GoodV1Data : ContinuityInstance :=
  { public_inputs := { c1_hash := 4, c2_hash := 5, domain_sep := domain_sep_fr },
    witness := { id := 1, r1 := 2, r2 := 3 } }

/-- Like `c3GoodV1` but with `c1_hash` encoding `0`, so the recomputed
commitment `sumHash [1,1,2] = 4` does not match. -/
def c3BadV1 : ContinuityInstanceV1 :=
  { schema_version := 1,
    id := MembershipSnark.fr_to_fixed_bytes 1,
    r1 := MembershipSnark.fr_to_fixed_bytes 2,
    r2 := MembershipSnark.fr_to_fixed_bytes 3,
    c1_hash := MembershipSnark.fr_to_fixed_bytes 0,
    c2_hash := MembershipSnark.fr_to_fixed_bytes (MembershipSnark.commitment_hash sumHash 1 3),
    domain_sep := CONTINUITY_V1_DOMAIN_SEP }

/-- A concrete v2 continuity instance accepted under `sumHash`:
`id = 1`, `r1 = 2`, `r2 = 3`, `ctx_hash = 4`, commitments
`sumHash [1,1,2,4] = 8` and `sumHash [1,1,3,4] = 9`. -/
def c3GoodV2 : ContinuityInstanceV2 :=
  { schema_version := 2, statement_type := 3, statement_version := 2,
    id := MembershipSnark.fr_to_fixed_bytes 1,
    r1 := MembershipSnark.fr_to_fixed_bytes 2,
    r2 := MembershipSnark.fr_to_fixed_bytes 3,
    c1_hash := MembershipSnark.fr_to_fixed_bytes (commitment_hash_v2 sumHash 1 2 4),
    c2_hash := MembershipSnark.fr_to_fixed_bytes (commitment_hash_v2 sumHash 1 3 4),
    domain_sep := CONTINUITY_V2_DOMAIN_SEP,
    ctx_hash := MembershipSnark.fr_to_fixed_bytes 4 }

/-- The decoded form of `c3GoodV2`. -/
def c3GoodV2Data : ContinuityInstanceV2Data :=
  { public_inputs :=
      { c1_hash := 8, c2_hash := 9, domain_sep := domain_sep_v2_fr, ctx_hash := 4 },
    witness := { id := 1, r1 := 2, r2 := 3 } }

/-- Like `c3GoodV2` but with `c1_hash` encoding `0`. -/
def c3BadV2 : ContinuityInstanceV2 :=
  { schema_version := 2, statement_type := 3, statement_version := 2,
    id := MembershipSnark.fr_to_fixed_bytes 1,
    r1 := MembershipSnark.fr_to_fixed_bytes 2,
    r2 := MembershipSnark.fr_to_fixed_bytes 3,
    c1_hash := MembershipSnark.fr_to_fixed_bytes 0,
    c2_hash := MembershipSnark.fr_to_fixed_bytes (commitment_hash_v2 sumHash 1 3 4),
    domain_sep := CONTINUITY_V2_DOMAIN_SEP,
    ctx_hash := MembershipSnark.fr_to_fixed_bytes 4 }

end ContinuitySnark

namespace UnlinkabilitySnark

/-- A concrete unlinkability v2 instance built by `build_instance_v2` under
`sumHash` with `id = 2`, `blinding = 3`, `ctx_hash = 4`. -/
def c4GoodBytes : UnlinkabilityInstanceV2 := (build_instance_v2 sumHash 2 3 4).1

/-- The decoded form of `c4GoodBytes`: the commitment is `sumHash [1,2,3] = 6`
and the tag is `sumHash [domain_sep, 4, 6] = domain_sep_v2_fr + 10`. -/
def c4GoodData : UnlinkabilityInstanceV2Data :=
  { public_inputs :=
      { tag := domain_sep_v2_fr + 10, domain_sep := domain_sep_v2_fr, ctx_hash := 4 },
    witness := { id := 2, blinding := 3 } }

end UnlinkabilitySnark

/-! ### Helper lemmas -/

@[simp] lemma except_bind_eq_ok {ε α β : Type} (x : Except ε α) (f : α → Except ε β) (b : β) :
    x >>= f = .ok b ↔ ∃ a, x = .ok a ∧ f a = .ok b := by
  cases x <;> simp [Bind.bind, Except.bind]

@[simp] lemma ite_error_eq_ok {ε α : Type} {c : Prop} [Decidable c] {e : ε}
    {rest : Except ε α} {b : α} :
    (if c then Except.error e else rest) = .ok b ↔ ¬c ∧ rest = .ok b := by
  split_ifs <;> simp_all

@[simp] lemma ite_ok_error_eq_ok {ε α : Type} {c : Prop} [Decidable c] {e : ε}
    {rest : Except ε α} {b : α} :
    (if c then rest else Except.error e) = .ok b ↔ c ∧ rest = .ok b := by
  split_ifs <;> simp_all

@[simp] lemma pure_eq_ok {ε α : Type} (a b : α) :
    (pure a : Except ε α) = .ok b ↔ a = b := by
  simp [pure, Except.pure]

lemma beBytesToNat_append_single (l : List ℕ) (x : ℕ) :
    beBytesToNat (l ++ [x]) = beBytesToNat l * 256 + x := by
  simp [beBytesToNat, List.foldl_append]

/-- Decoding the `k`-byte big-endian encoding of `n < 256 ^ k` returns `n`. -/
lemma beBytesToNat_encode (k : ℕ) :
    ∀ n : ℕ, n < 256 ^ k →
      beBytesToNat ((List.range k).map (fun i => n / 256 ^ (k - 1 - i) % 256)) = n := by
  induction k with
  | zero =>
    intro n hn
    interval_cases n
    rfl
  | succ k ih =>
    intro n hn
    rw [List.range_succ, List.map_append, List.map_singleton]
    have hcongr :
        (List.range k).map (fun i => n / 256 ^ (k + 1 - 1 - i) % 256)
          = (List.range k).map (fun i => (n / 256) / 256 ^ (k - 1 - i) % 256) := by
      apply List.map_congr_left
      intro i hi
      have hik : i < k := List.mem_range.mp hi
      have hexp : k + 1 - 1 - i = (k - 1 - i) + 1 := by omega
      rw [hexp, pow_succ', ← Nat.div_div_eq_div_mul]
    have hzero : k + 1 - 1 - k = 0 := by omega
    have hdivlt : n / 256 < 256 ^ k := by
      rw [Nat.div_lt_iff_lt_mul (by norm_num : 0 < 256)]
      calc n < 256 ^ (k + 1) := hn
        _ = 256 ^ k * 256 := by rw [pow_succ]
    rw [hcongr, hzero, pow_zero, Nat.div_one, beBytesToNat_append_single,
      ih (n / 256) hdivlt]
    omega

namespace MembershipSnark

lemma fr_to_fixed_bytes_len (v : Fr) : (fr_to_fixed_bytes v).length = 32 := by
  simp [fr_to_fixed_bytes]

/-- Decoding the fixed 32-byte encoding gives back the field element. -/
lemma fr_from_be_of_fr_to_fixed_bytes (v : Fr) :
    fr_from_be_bytes_mod_order (fr_to_fixed_bytes v) = v := by
  have hvlt : v.val < 256 ^ 32 := by
    refine lt_trans (ZMod.val_lt v) ?_
    norm_num [frModulus]
  have henc := beBytesToNat_encode 32 v.val hvlt
  have h32 : ∀ i : ℕ, 32 - 1 - i = 31 - i := by omega
  unfold fr_from_be_bytes_mod_order fr_to_fixed_bytes
  simp only [h32] at henc
  rw [henc]
  exact ZMod.natCast_rightInverse v

@[simp] lemma fr_from_bytes_eq_ok {label : String} {bytes : List ℕ} {v : Fr} :
    fr_from_bytes label bytes = .ok v ↔
      ¬bytes = [] ∧ bytes.length ≤ 32 ∧ fr_from_be_bytes_mod_order bytes = v := by
  simp [fr_from_bytes, FIELD_BYTES, List.isEmpty_iff, Nat.not_lt]

@[simp] lemma ensure_version_u16_eq_ok {label : String} {version expected : ℕ} {u : Unit} :
    ensure_version_u16 label version expected = .ok u ↔ version = expected := by
  simp [ensure_version_u16]

@[simp] lemma ensure_statement_type_version_eq_ok {st sv : ℕ} {u : Unit} :
    ensure_statement_type_version st sv = .ok u ↔
      st = MEMBERSHIP_STATEMENT_TYPE ∧ sv = MEMBERSHIP_STATEMENT_VERSION_V2 := by
  simp [ensure_statement_type_version]

@[simp] lemma ensure_domain_sep_eq_ok {label : String} {ds : List ℕ} {u : Unit} :
    ensure_domain_sep label ds = .ok u ↔ ds = MEMBERSHIP_V2_DOMAIN_SEP := by
  simp [ensure_domain_sep]

lemma decode_path_eq_ok :
    ∀ {pairs : List (List ℕ × Bool)} {out : List (Fr × Bool)},
      decode_path pairs = .ok out →
      out = pairs.map (fun node => (fr_from_be_bytes_mod_order node.1, node.2)) := by
  intro pairs
  induction pairs with
  | nil =>
    intro out h
    simp only [decode_path, Except.ok.injEq] at h
    simp [← h]
  | cons node rest ih =>
    intro out h
    simp only [decode_path, except_bind_eq_ok, fr_from_bytes_eq_ok, pure_eq_ok] at h
    obtain ⟨sib, ⟨hne, hlen, hsib⟩, tail, htail, hout⟩ := h
    subst hsib hout
    simp [ih htail]

lemma merkle_loop_somes (H : List Fr → Fr) (path : List (Fr × Bool)) :
    ∀ acc : Fr,
      merkle_loop H acc (path.map (fun node => (some node.1, some node.2)))
        = .ok (merkle_fold H acc path) := by
  induction path with
  | nil => intro acc; rfl
  | cons hd tl ih =>
    intro acc
    exact ih _

end MembershipSnark

namespace ContinuitySnark

@[simp] lemma cont_fr_from_fixed_bytes_eq_ok {label : String} {bytes : List ℕ} {v : Fr} :
    fr_from_fixed_bytes label bytes = .ok v ↔
      ¬bytes = [] ∧ fr_from_be_bytes_mod_order bytes = v := by
  simp [fr_from_fixed_bytes, List.isEmpty_iff]

@[simp] lemma cont_ensure_version_eq_ok {label : String} {v : ℕ} {u : Unit} :
    ensure_version label v = .ok u ↔ v = CONTINUITY_INSTANCE_VERSION_V1 := by
  simp [ensure_version]

@[simp] lemma cont_ensure_domain_sep_eq_ok {label : String} {ds : List ℕ} {u : Unit} :
    ensure_domain_sep label ds = .ok u ↔ ds = CONTINUITY_V1_DOMAIN_SEP := by
  simp [ensure_domain_sep]

@[simp] lemma cont_ensure_version_v2_eq_ok {label : String} {v : ℕ} {u : Unit} :
    ensure_version_v2 label v = .ok u ↔ v = CONTINUITY_INSTANCE_VERSION_V2 := by
  simp [ensure_version_v2]

@[simp] lemma cont_ensure_statement_eq_ok {st sv : ℕ} {u : Unit} :
    ensure_statement_type_version st sv = .ok u ↔
      st = CONTINUITY_STATEMENT_TYPE ∧ sv = CONTINUITY_STATEMENT_VERSION_V2 := by
  simp [ensure_statement_type_version]

@[simp] lemma cont_ensure_domain_sep_v2_eq_ok {label : String} {ds : List ℕ} {u : Unit} :
    ensure_domain_sep_v2 label ds = .ok u ↔ ds = CONTINUITY_V2_DOMAIN_SEP := by
  simp [ensure_domain_sep_v2]

lemma cont_intoV1_ok {H : List Fr → Fr} {b : ContinuityInstanceV1}
    {out : ContinuityInstance} (h : b.into_instance H = .ok out) :
    out.witness.id = fr_from_be_bytes_mod_order b.id ∧
    out.witness.r1 = fr_from_be_bytes_mod_order b.r1 ∧
    out.witness.r2 = fr_from_be_bytes_mod_order b.r2 ∧
    out.public_inputs.c1_hash = fr_from_be_bytes_mod_order b.c1_hash ∧
    out.public_inputs.c2_hash = fr_from_be_bytes_mod_order b.c2_hash ∧
    MembershipSnark.commitment_hash H out.witness.id out.witness.r1
      = out.public_inputs.c1_hash ∧
    MembershipSnark.commitment_hash H out.witness.id out.witness.r2
      = out.public_inputs.c2_hash := by
  unfold ContinuityInstanceV1.into_instance at h
  simp only [except_bind_eq_ok, ite_error_eq_ok, ite_ok_error_eq_ok, pure_eq_ok,
    cont_fr_from_fixed_bytes_eq_ok, cont_ensure_version_eq_ok,
    cont_ensure_domain_sep_eq_ok, ne_eq, not_not] at h
  obtain ⟨u1, hv, u2, hds, id, ⟨hidne, hid⟩, r1, ⟨hr1ne, hr1⟩, r2, ⟨hr2ne, hr2⟩,
    c1, ⟨hc1ne, hc1⟩, c2, ⟨hc2ne, hc2⟩, heq1, heq2, ds, ⟨hdsne, hdsv⟩, hout⟩ := h
  subst hid hr1 hr2 hc1 hc2 hdsv hout
  exact ⟨rfl, rfl, rfl, rfl, rfl, heq1, heq2⟩

lemma cont_intoV2_ok {H : List Fr → Fr} {b : ContinuityInstanceV2}
    {out : ContinuityInstanceV2Data} (h : b.into_instance H = .ok out) :
    out.witness.id = fr_from_be_bytes_mod_order b.id ∧
    out.witness.r1 = fr_from_be_bytes_mod_order b.r1 ∧
    out.witness.r2 = fr_from_be_bytes_mod_order b.r2 ∧
    out.public_inputs.c1_hash = fr_from_be_bytes_mod_order b.c1_hash ∧
    out.public_inputs.c2_hash = fr_from_be_bytes_mod_order b.c2_hash ∧
    out.public_inputs.ctx_hash = fr_from_be_bytes_mod_order b.ctx_hash ∧
    commitment_hash_v2 H out.witness.id out.witness.r1 out.public_inputs.ctx_hash
      = out.public_inputs.c1_hash ∧
    commitment_hash_v2 H out.witness.id out.witness.r2 out.public_inputs.ctx_hash
      = out.public_inputs.c2_hash := by
  unfold ContinuityInstanceV2.into_instance at h
  simp only [except_bind_eq_ok, ite_error_eq_ok, ite_ok_error_eq_ok, pure_eq_ok,
    cont_fr_from_fixed_bytes_eq_ok, cont_ensure_version_v2_eq_ok,
    cont_ensure_statement_eq_ok, cont_ensure_domain_sep_v2_eq_ok, ne_eq, not_not] at h
  obtain ⟨u1, hv, u2, ⟨hst, hsv⟩, u3, hds, id, ⟨hidne, hid⟩, r1, ⟨hr1ne, hr1⟩,
    r2, ⟨hr2ne, hr2⟩, c1, ⟨hc1ne, hc1⟩, c2, ⟨hc2ne, hc2⟩, ctx, ⟨hctxne, hctx⟩,
    heq1, heq2, ds, ⟨hdsne, hdsv⟩, hout⟩ := h
  subst hid hr1 hr2 hc1 hc2 hctx hdsv hout
  exact ⟨rfl, rfl, rfl, rfl, rfl, rfl, heq1, heq2⟩

end ContinuitySnark

namespace UnlinkabilitySnark

@[simp] lemma unlink_fr_from_fixed_bytes_eq_ok {label : String} {bytes : List ℕ} {v : Fr} :
    fr_from_fixed_bytes label bytes = .ok v ↔
      ¬bytes = [] ∧ fr_from_be_bytes_mod_order bytes = v := by
  simp [fr_from_fixed_bytes, List.isEmpty_iff]

@[simp] lemma unlink_ensure_version_v2_eq_ok {label : String} {v : ℕ} {u : Unit} :
    ensure_version_v2 label v = .ok u ↔ v = UNLINKABILITY_INSTANCE_VERSION_V2 := by
  simp [ensure_version_v2]

@[simp] lemma unlink_ensure_statement_eq_ok {st sv : ℕ} {u : Unit} :
    ensure_statement_type_version st sv = .ok u ↔
      st = UNLINKABILITY_STATEMENT_TYPE ∧ sv = UNLINKABILITY_STATEMENT_VERSION_V2 := by
  simp [ensure_statement_type_version]

@[simp] lemma unlink_ensure_domain_sep_v2_eq_ok {label : String} {ds : List ℕ} {u : Unit} :
    ensure_domain_sep_v2 label ds = .ok u ↔ ds = UNLINKABILITY_V2_DOMAIN_SEP := by
  simp [ensure_domain_sep_v2]

lemma unlink_into_ok {H : List Fr → Fr} {b : UnlinkabilityInstanceV2}
    {out : UnlinkabilityInstanceV2Data} (h : b.into_instance H = .ok out) :
    out.witness.id = fr_from_be_bytes_mod_order b.id ∧
    out.witness.blinding = fr_from_be_bytes_mod_order b.blinding ∧
    out.public_inputs.tag = fr_from_be_bytes_mod_order b.tag ∧
    out.public_inputs.ctx_hash = fr_from_be_bytes_mod_order b.ctx_hash ∧
    tag_hash H domain_sep_v2_fr out.public_inputs.ctx_hash
        (MembershipSnark.commitment_hash H out.witness.id out.witness.blinding)
      = out.public_inputs.tag := by
  unfold UnlinkabilityInstanceV2.into_instance at h
  simp only [except_bind_eq_ok, ite_error_eq_ok, ite_ok_error_eq_ok, pure_eq_ok,
    unlink_fr_from_fixed_bytes_eq_ok, unlink_ensure_version_v2_eq_ok,
    unlink_ensure_statement_eq_ok, unlink_ensure_domain_sep_v2_eq_ok, ne_eq, not_not] at h
  obtain ⟨u1, hv, u2, ⟨hst, hsv⟩, u3, hds, id, ⟨hidne, hid⟩, bl, ⟨hblne, hbl⟩,
    tag, ⟨htagne, htag⟩, ctx, ⟨hctxne, hctx⟩, heq, ds, ⟨hdsne, hdsv⟩, hout⟩ := h
  subst hid hbl htag hctx hdsv hout
  exact ⟨rfl, rfl, rfl, rfl, heq⟩

end UnlinkabilitySnark

namespace MembershipSnark

lemma membership_intoV2_ok {b : MembershipInstanceV2Bytes}
    {inst : MembershipInstanceV2} {d : ℕ}
    (h : b.into_instance_with_depth = .ok (inst, d)) :
    b.schema_version = 2 ∧
    b.public_inputs.schema_version = 2 ∧
    b.public_inputs.statement_type = 1 ∧
    b.public_inputs.statement_version = 2 ∧
    b.public_inputs.domain_sep = MEMBERSHIP_V2_DOMAIN_SEP ∧
    0 < d ∧ b.public_inputs.depth = d ∧ b.witness.depth = d ∧
    b.witness.schema_version = 2 ∧
    b.witness.merkle_siblings.length = d ∧
    b.witness.merkle_directions.length = d ∧
    inst.public_inputs.root = fr_from_be_bytes_mod_order b.public_inputs.root ∧
    inst.public_inputs.commitment = fr_from_be_bytes_mod_order b.public_inputs.commitment ∧
    inst.public_inputs.domain_sep = membership_v2_domain_sep_fr ∧
    inst.public_inputs.ctx_hash = fr_from_be_bytes_mod_order b.public_inputs.ctx_hash ∧
    inst.witness.identity_scalar = fr_from_be_bytes_mod_order b.witness.identity_scalar ∧
    inst.witness.blinding = fr_from_be_bytes_mod_order b.witness.blinding ∧
    inst.witness.merkle_path
      = (b.witness.merkle_siblings.zip b.witness.merkle_directions).map
          (fun node => (fr_from_be_bytes_mod_order node.1, node.2)) := by
  unfold MembershipInstanceV2Bytes.into_instance_with_depth
    MembershipPublicInputsV2Bytes.into_public_inputs_with_depth
    MembershipWitnessV2Bytes.into_witness at h
  simp only [except_bind_eq_ok, ite_error_eq_ok, ite_ok_error_eq_ok, pure_eq_ok,
    fr_from_bytes_eq_ok, ensure_version_u16_eq_ok, ensure_statement_type_version_eq_ok,
    ensure_domain_sep_eq_ok, ne_eq, not_not,
    MEMBERSHIP_INSTANCE_VERSION_V2, MEMBERSHIP_STATEMENT_TYPE,
    MEMBERSHIP_STATEMENT_VERSION_V2] at h
  obtain ⟨u1, hv, pd, ⟨u2, hpv, u3, ⟨hst, hsv⟩, u4, hds, hdep, root, ⟨hrne, hrlen, hr⟩,
    com, ⟨hcne, hclen, hc⟩, dsv, ⟨hdsne, hdslen, hdsval⟩, ctx, ⟨hctxne, hctxlen, hctx⟩,
    hpd⟩, hwdep, wit, ⟨u5, hwv, hwd, hsiblen, hdirlen, path, hpath, idv,
    ⟨hidne, hidlen, hid⟩, blv, ⟨hblne, hbllen, hbl⟩, hwit⟩, hinst⟩ := h
  have hpath' := decode_path_eq_ok hpath
  subst hpd hwit
  dsimp only at hwdep hinst hwd hsiblen hdirlen
  injection hinst with hinstEq hdEq
  subst hinstEq hdEq
  refine ⟨hv, hpv, hst, hsv, hds, by omega, rfl, hwdep, hwv, hsiblen, hdirlen,
    hr.symm, hc.symm, ?_, hctx.symm, hid.symm, hbl.symm, hpath'⟩
  dsimp only
  rw [← hdsval]
  rw [hds]
  rfl

end MembershipSnark

namespace MembershipSnark

lemma generate_constraints_somes (H : List Fr → Fr) (root ci id bl : Fr)
    (d : ℕ) (path : List (Fr × Bool)) (hd : d = path.length) (hne : path ≠ []) :
    MembershipCircuit.generate_constraints H
      { root := some root, commitment := some ci, identity_scalar := some id,
        blinding := some bl, expected_depth := d,
        merkle_path := path.map (fun node => (some node.1, some node.2)) }
      = .ok { shape := d,
              publicInputs := [root, ci],
              enforced := [(commitment_hash H id bl, ci),
                           (merkle_fold H (leaf_hash H (commitment_hash H id bl)) path,
                            root)] } := by
  subst hd
  have hlen : path.length ≠ 0 := by simpa [List.length_eq_zero] using hne
  unfold MembershipCircuit.generate_constraints
  rw [if_neg (by simp [hlen])]
  show (merkle_loop H _ _ >>= _) = _
  rw [merkle_loop_somes H path]
  rfl

end MembershipSnark

/-! ### Claim theorems -/

/-- C7: for every Poseidon configuration (abstracted by the hash function
`H`) and every commitment value `c`, `leaf_hash` and `poseidon_hash_leaf`
return the same value `H(2, c, 0)`; the two spellings are extensionally the
same function. -/
theorem leaf_hash_eq_poseidon_hash_leaf :
    ∀ (H : List Fr → Fr) (c : Fr),
      MembershipSnark.leaf_hash H c = MembershipSnark.poseidon_hash_leaf H c ∧
      MembershipSnark.leaf_hash H c = H [(2 : Fr), c, 0] := by
  intro H c
  exact ⟨rfl, by norm_num [MembershipSnark.leaf_hash, MembershipSnark.DOMAIN_LEAF]⟩

/-- C8: `fr_from_bytes` returns an error exactly when the input is empty or
longer than 32 bytes; every input of length 1 through 32 decodes to its
big-endian modular reduction (short inputs behave as left-zero-extended). -/
theorem fr_from_bytes_length_check :
    ∀ (label : String) (bytes : List ℕ),
      ((∃ e, MembershipSnark.fr_from_bytes label bytes = .error e)
          ↔ (bytes.length = 0 ∨ 32 < bytes.length)) ∧
      (1 ≤ bytes.length → bytes.length ≤ 32 →
        MembershipSnark.fr_from_bytes label bytes
          = .ok (fr_from_be_bytes_mod_order bytes)) := by
  intro label bytes
  constructor
  · unfold MembershipSnark.fr_from_bytes
    split_ifs with h1 h2 <;>
      simp_all [List.isEmpty_iff, MembershipSnark.FIELD_BYTES, List.length_eq_zero]
  · intro h1 h2
    have hne : bytes ≠ [] := by
      intro hc
      rw [hc] at h1
      simp at h1
    unfold MembershipSnark.fr_from_bytes
    rw [if_neg (by simpa [List.isEmpty_iff] using hne),
      if_neg (by simp [MembershipSnark.FIELD_BYTES]; omega)]

/-- C8 witness: the one-byte input `[7]` is accepted and decodes to `7`. -/
theorem fr_from_bytes_length_check_witness :
    1 ≤ ([7] : List ℕ).length ∧ ([7] : List ℕ).length ≤ 32 ∧
    MembershipSnark.fr_from_bytes "x" [7] = .ok (fr_from_be_bytes_mod_order [7]) :=
  ⟨by decide, by decide,
    (fr_from_bytes_length_check "x" [7]).2 (by decide) (by decide)⟩

/-- C9: `fr_to_fixed_bytes` always returns exactly 32 bytes and decoding the
encoding with `fr_from_bytes` returns the original field element. -/
theorem fr_to_fixed_bytes_roundtrip :
    ∀ (label : String) (v : Fr),
      (MembershipSnark.fr_to_fixed_bytes v).length = 32 ∧
      MembershipSnark.fr_from_bytes label (MembershipSnark.fr_to_fixed_bytes v)
        = .ok v := by
  intro label v
  refine ⟨MembershipSnark.fr_to_fixed_bytes_len v, ?_⟩
  rw [MembershipSnark.fr_from_bytes_eq_ok]
  refine ⟨?_, ?_, MembershipSnark.fr_from_be_of_fr_to_fixed_bytes v⟩
  · intro hcontra
    have := congrArg List.length hcontra
    rw [MembershipSnark.fr_to_fixed_bytes_len] at this
    simp at this
  · rw [MembershipSnark.fr_to_fixed_bytes_len]

/-- C10: `fr_from_fixed_bytes` of the continuity and unlinkability crates
never errors on a 32-byte input: the empty-input check cannot fire, and the
result is the big-endian modular reduction. -/
theorem fr_from_fixed_bytes_never_errors :
    ∀ (label : String) (bytes : List ℕ), bytes.length = 32 →
      ContinuitySnark.fr_from_fixed_bytes label bytes
          = .ok (fr_from_be_bytes_mod_order bytes) ∧
      UnlinkabilitySnark.fr_from_fixed_bytes label bytes
          = .ok (fr_from_be_bytes_mod_order bytes) := by
  intro label bytes hlen
  have hne : ¬bytes = [] := by
    intro hcontra
    rw [hcontra] at hlen
    simp at hlen
  constructor
  · rw [ContinuitySnark.cont_fr_from_fixed_bytes_eq_ok]
    exact ⟨hne, rfl⟩
  · rw [UnlinkabilitySnark.unlink_fr_from_fixed_bytes_eq_ok]
    exact ⟨hne, rfl⟩

/-- C10 witness: the all-zero 32-byte array decodes without error in both
crates. -/
theorem fr_from_fixed_bytes_never_errors_witness :
    (List.replicate 32 (0 : ℕ)).length = 32 ∧
    ContinuitySnark.fr_from_fixed_bytes "id" (List.replicate 32 0)
        = .ok (fr_from_be_bytes_mod_order (List.replicate 32 0)) ∧
    UnlinkabilitySnark.fr_from_fixed_bytes "id" (List.replicate 32 0)
        = .ok (fr_from_be_bytes_mod_order (List.replicate 32 0)) :=
  ⟨by decide,
    (fr_from_fixed_bytes_never_errors "id" (List.replicate 32 0) (by decide)).1,
    (fr_from_fixed_bytes_never_errors "id" (List.replicate 32 0) (by decide)).2⟩

/-- C6: both membership circuits fail synthesis with `Unsatisfiable` whenever
the expected depth is zero or the supplied path length differs from it,
regardless of the other field values. -/
theorem generate_constraints_rejects_bad_depth :
    ∀ (H : List Fr → Fr) (c : MembershipSnark.MembershipCircuit)
      (c2 : MembershipSnark.MembershipCircuitV2),
      (c.expected_depth = 0 ∨ c.merkle_path.length ≠ c.expected_depth →
        c.generate_constraints H = .error .Unsatisfiable) ∧
      (c2.expected_depth = 0 ∨ c2.merkle_path.length ≠ c2.expected_depth →
        c2.generate_constraints H = .error .Unsatisfiable) := by
  intro H c c2
  constructor
  · intro h
    unfold MembershipSnark.MembershipCircuit.generate_constraints
    rw [if_pos h]
  · intro h
    unfold MembershipSnark.MembershipCircuitV2.generate_constraints
    rw [if_pos h]

/-- C6 witness: the depth-0 circuits (with every assignment missing) are
rejected with `Unsatisfiable`. -/
theorem generate_constraints_rejects_bad_depth_witness :
    MembershipSnark.MembershipCircuit.generate_constraints sumHash
      { root := none, commitment := none, identity_scalar := none, blinding := none,
        expected_depth := 0, merkle_path := [] } = .error .Unsatisfiable ∧
    MembershipSnark.MembershipCircuitV2.generate_constraints sumHash
      { root := none, commitment := none, domain_sep := none, ctx_hash := none,
        identity_scalar := none, blinding := none,
        expected_depth := 0, merkle_path := [] } = .error .Unsatisfiable :=
  ⟨(generate_constraints_rejects_bad_depth sumHash
      { root := none, commitment := none, identity_scalar := none, blinding := none,
        expected_depth := 0, merkle_path := [] }
      { root := none, commitment := none, domain_sep := none, ctx_hash := none,
        identity_scalar := none, blinding := none,
        expected_depth := 0, merkle_path := [] }).1 (Or.inl rfl),
   (generate_constraints_rejects_bad_depth sumHash
      { root := none, commitment := none, identity_scalar := none, blinding := none,
        expected_depth := 0, merkle_path := [] }
      { root := none, commitment := none, domain_sep := none, ctx_hash := none,
        identity_scalar := none, blinding := none,
        expected_depth := 0, merkle_path := [] }).2 (Or.inl rfl)⟩

/-- C5: the membership circuit folds the Merkle accumulator one level at a
time as `H(3, sibling, acc)` when `is_left` holds and `H(3, acc, sibling)`
otherwise; synthesis of a fully assigned circuit enforces exactly the
commitment equation and the equality of the final accumulator with the
public root; and for the depth-2 path `[(s1, is_left=false), (s2, is_left=true)]`
the enforced root is `H(3, s2, H(3, leaf, s1))`. -/
theorem membership_circuit_merkle_fold_shape :
    ∀ (H : List Fr → Fr) (root ci id bl acc s leaf s1 s2 : Fr) (l : Bool)
      (rest : List (Fr × Bool)),
      (MembershipSnark.merkle_fold H acc ((s, l) :: rest)
          = MembershipSnark.merkle_fold H
              (if l then H [(3 : Fr), s, acc] else H [(3 : Fr), acc, s]) rest) ∧
      (MembershipSnark.MembershipCircuit.generate_constraints H
          { root := some root, commitment := some ci, identity_scalar := some id,
            blinding := some bl, expected_depth := ((s, l) :: rest).length,
            merkle_path := ((s, l) :: rest).map (fun node => (some node.1, some node.2)) }
        = .ok { shape := ((s, l) :: rest).length,
                publicInputs := [root, ci],
                enforced :=
                  [(MembershipSnark.commitment_hash H id bl, ci),
                   (MembershipSnark.merkle_fold H
                      (MembershipSnark.leaf_hash H (MembershipSnark.commitment_hash H id bl))
                      ((s, l) :: rest), root)] }) ∧
      (MembershipSnark.merkle_fold H leaf [(s1, false), (s2, true)]
          = H [(3 : Fr), s2, H [(3 : Fr), leaf, s1]]) := by
  intro H root ci id bl acc s leaf s1 s2 l rest
  refine ⟨?_, ?_, ?_⟩
  · cases l <;> simp [MembershipSnark.merkle_fold, MembershipSnark.DOMAIN_NODE]
  · exact MembershipSnark.generate_constraints_somes H root ci id bl _ _ rfl
      (by simp)
  · simp [MembershipSnark.merkle_fold, MembershipSnark.DOMAIN_NODE]

/-- C3: `ContinuityInstanceV1::into_instance` (and the v2 analogue) returns
an error whenever the recomputed commitment differs from the corresponding
public hash (for v2 with the four-input hash including the context), and
whenever it returns `Ok` both commitment equalities hold for the decoded
fields. -/
theorem continuity_commitment_validation :
    ∀ (H : List Fr → Fr) (b1 : ContinuitySnark.ContinuityInstanceV1)
      (b2 : ContinuitySnark.ContinuityInstanceV2),
      ((MembershipSnark.commitment_hash H (fr_from_be_bytes_mod_order b1.id)
            (fr_from_be_bytes_mod_order b1.r1) ≠ fr_from_be_bytes_mod_order b1.c1_hash ∨
        MembershipSnark.commitment_hash H (fr_from_be_bytes_mod_order b1.id)
            (fr_from_be_bytes_mod_order b1.r2) ≠ fr_from_be_bytes_mod_order b1.c2_hash) →
        ∃ e, b1.into_instance H = .error e) ∧
      (∀ out, b1.into_instance H = .ok out →
        MembershipSnark.commitment_hash H out.witness.id out.witness.r1
            = out.public_inputs.c1_hash ∧
        MembershipSnark.commitment_hash H out.witness.id out.witness.r2
            = out.public_inputs.c2_hash) ∧
      ((ContinuitySnark.commitment_hash_v2 H (fr_from_be_bytes_mod_order b2.id)
            (fr_from_be_bytes_mod_order b2.r1) (fr_from_be_bytes_mod_order b2.ctx_hash)
          ≠ fr_from_be_bytes_mod_order b2.c1_hash ∨
        ContinuitySnark.commitment_hash_v2 H (fr_from_be_bytes_mod_order b2.id)
            (fr_from_be_bytes_mod_order b2.r2) (fr_from_be_bytes_mod_order b2.ctx_hash)
          ≠ fr_from_be_bytes_mod_order b2.c2_hash) →
        ∃ e, b2.into_instance H = .error e) ∧
      (∀ out, b2.into_instance H = .ok out →
        ContinuitySnark.commitment_hash_v2 H out.witness.id out.witness.r1
            out.public_inputs.ctx_hash = out.public_inputs.c1_hash ∧
        ContinuitySnark.commitment_hash_v2 H out.witness.id out.witness.r2
            out.public_inputs.ctx_hash = out.public_inputs.c2_hash) := by
  intro H b1 b2
  refine ⟨?_, ?_, ?_, ?_⟩
  · intro hmis
    cases hx : b1.into_instance H with
    | error e => exact ⟨e, rfl⟩
    | ok out =>
      obtain ⟨hid, hr1, hr2, hc1, hc2, heq1, heq2⟩ := ContinuitySnark.cont_intoV1_ok hx
      rw [hid, hr1, hc1] at heq1
      rw [hid, hr2, hc2] at heq2
      rcases hmis with hm | hm
      · exact absurd heq1 hm
      · exact absurd heq2 hm
  · intro out hx
    obtain ⟨hid, hr1, hr2, hc1, hc2, heq1, heq2⟩ := ContinuitySnark.cont_intoV1_ok hx
    exact ⟨heq1, heq2⟩
  · intro hmis
    cases hx : b2.into_instance H with
    | error e => exact ⟨e, rfl⟩
    | ok out =>
      obtain ⟨hid, hr1, hr2, hc1, hc2, hctx, heq1, heq2⟩ :=
        ContinuitySnark.cont_intoV2_ok hx
      rw [hid, hr1, hc1, hctx] at heq1
      rw [hid, hr2, hc2, hctx] at heq2
      rcases hmis with hm | hm
      · exact absurd heq1 hm
      · exact absurd heq2 hm
  · intro out hx
    obtain ⟨hid, hr1, hr2, hc1, hc2, hctx, heq1, heq2⟩ :=
      ContinuitySnark.cont_intoV2_ok hx
    exact ⟨heq1, heq2⟩

/-- C3 witness: the concrete v1 and v2 instances with a tampered `c1_hash`
are rejected, and the accepted concrete instances satisfy the recomputed
commitment equalities. -/
theorem continuity_commitment_validation_witness :
    (∃ e, ContinuitySnark.ContinuityInstanceV1.into_instance sumHash
        ContinuitySnark.c3BadV1 = .error e) ∧
    MembershipSnark.commitment_hash sumHash 1 2 = (4 : Fr) ∧
    (∃ e, ContinuitySnark.ContinuityInstanceV2.into_instance sumHash
        ContinuitySnark.c3BadV2 = .error e) ∧
    ContinuitySnark.commitment_hash_v2 sumHash 1 2 4 = (8 : Fr) :=
  ⟨(continuity_commitment_validation sumHash ContinuitySnark.c3BadV1
      ContinuitySnark.c3BadV2).1 (Or.inl (by decide)),
   ((continuity_commitment_validation sumHash ContinuitySnark.c3GoodV1
      ContinuitySnark.c3BadV2).2.1 ContinuitySnark.c3GoodV1Data (by decide)).1,
   (continuity_commitment_validation sumHash ContinuitySnark.c3BadV1
      ContinuitySnark.c3BadV2).2.2.1 (Or.inl (by decide)),
   ((continuity_commitment_validation sumHash ContinuitySnark.c3BadV1
      ContinuitySnark.c3GoodV2).2.2.2 ContinuitySnark.c3GoodV2Data (by decide)).1⟩

/-- C4: `UnlinkabilityInstanceV2::into_instance` accepts a record only if its
tag equals the natively recomputed `H(domain_sep, ctx_hash, H(1, id, blinding))`
with the fixed unlinkability v2 domain separator, and the records produced by
`build_instance_v2` carry exactly that tag. -/
theorem unlinkability_tag_validation :
    ∀ (H : List Fr → Fr) (b : UnlinkabilitySnark.UnlinkabilityInstanceV2)
      (out : UnlinkabilitySnark.UnlinkabilityInstanceV2Data) (id blinding ctx_hash : Fr),
      (b.into_instance H = .ok out →
        out.public_inputs.tag
          = UnlinkabilitySnark.tag_hash H UnlinkabilitySnark.domain_sep_v2_fr
              out.public_inputs.ctx_hash
              (MembershipSnark.commitment_hash H out.witness.id out.witness.blinding)) ∧
      ((UnlinkabilitySnark.build_instance_v2 H id blinding ctx_hash).1.tag
          = MembershipSnark.fr_to_fixed_bytes
              (UnlinkabilitySnark.tag_hash H UnlinkabilitySnark.domain_sep_v2_fr ctx_hash
                (MembershipSnark.commitment_hash H id blinding))) ∧
      ((UnlinkabilitySnark.build_instance_v2 H id blinding ctx_hash).2.tag
          = MembershipSnark.fr_to_fixed_bytes
              (UnlinkabilitySnark.tag_hash H UnlinkabilitySnark.domain_sep_v2_fr ctx_hash
                (MembershipSnark.commitment_hash H id blinding))) := by
  intro H b out id blinding ctx_hash
  refine ⟨?_, rfl, rfl⟩
  intro hx
  exact (UnlinkabilitySnark.unlink_into_ok hx).2.2.2.2.symm

/-- C4 witness: the concrete record built by `build_instance_v2` under
`sumHash` with `id = 2`, `blinding = 3`, `ctx_hash = 4` is accepted, and its
decoded tag equals the recomputed tag hash. -/
theorem unlinkability_tag_validation_witness :
    UnlinkabilitySnark.UnlinkabilityInstanceV2.into_instance sumHash
        UnlinkabilitySnark.c4GoodBytes = .ok UnlinkabilitySnark.c4GoodData ∧
    UnlinkabilitySnark.c4GoodData.public_inputs.tag
      = UnlinkabilitySnark.tag_hash sumHash UnlinkabilitySnark.domain_sep_v2_fr
          UnlinkabilitySnark.c4GoodData.public_inputs.ctx_hash
          (MembershipSnark.commitment_hash sumHash
            UnlinkabilitySnark.c4GoodData.witness.id
            UnlinkabilitySnark.c4GoodData.witness.blinding) :=
  ⟨by decide,
   (unlinkability_tag_validation sumHash UnlinkabilitySnark.c4GoodBytes
      UnlinkabilitySnark.c4GoodData 2 3 4).1 (by decide)⟩

/-- C1 counterexample: the claim that `into_instance_with_depth` natively
recomputes the commitment and the Merkle root and rejects mismatches is
false for every possible hash function: two records that differ only in the
public commitment bytes (encoding `5` and `6`) with identical identity and
blinding are both accepted, yet no hash can make both equal
`H(1, id, blinding)`. -/
theorem membership_v2_schema_does_not_recompute :
    ¬ MembershipSnark.membershipV2SchemaRecomputesDerived := by
  rintro ⟨H, hP⟩
  have h5 := (hP MembershipSnark.c1AcceptedBytes MembershipSnark.c1AcceptedData 1
    (by decide)).1
  have h6 := (hP MembershipSnark.c1AcceptedBytesAlt MembershipSnark.c1AcceptedDataAlt 1
    (by decide)).1
  have h5' : (5 : Fr) = MembershipSnark.commitment_hash H 1 2 := h5
  have h6' : (6 : Fr) = MembershipSnark.commitment_hash H 1 2 := h6
  have h56 : (5 : Fr) = 6 := by rw [h5', ← h6']
  exact absurd h56 (by decide)

/-- C1 (amended): `into_instance_with_depth` validates the schema versions,
statement type and version, the domain separator bytes, a positive depth and
the agreement of the witness depth and the sibling and direction counts with
it, and decodes every field big-endian mod order; it does not recompute the
commitment or the Merkle root (those equalities are enforced by the circuit
constraints, not by schema validation). -/
theorem membership_v2_into_instance_validation :
    ∀ (b : MembershipSnark.MembershipInstanceV2Bytes)
      (inst : MembershipSnark.MembershipInstanceV2) (d : ℕ),
      b.into_instance_with_depth = .ok (inst, d) →
      b.schema_version = 2 ∧
      b.public_inputs.schema_version = 2 ∧
      b.public_inputs.statement_type = 1 ∧
      b.public_inputs.statement_version = 2 ∧
      b.public_inputs.domain_sep = MembershipSnark.MEMBERSHIP_V2_DOMAIN_SEP ∧
      0 < d ∧ b.public_inputs.depth = d ∧ b.witness.depth = d ∧
      b.witness.schema_version = 2 ∧
      b.witness.merkle_siblings.length = d ∧
      b.witness.merkle_directions.length = d ∧
      inst.public_inputs.root = fr_from_be_bytes_mod_order b.public_inputs.root ∧
      inst.public_inputs.commitment
        = fr_from_be_bytes_mod_order b.public_inputs.commitment ∧
      inst.public_inputs.domain_sep = MembershipSnark.membership_v2_domain_sep_fr ∧
      inst.public_inputs.ctx_hash = fr_from_be_bytes_mod_order b.public_inputs.ctx_hash ∧
      inst.witness.identity_scalar
        = fr_from_be_bytes_mod_order b.witness.identity_scalar ∧
      inst.witness.blinding = fr_from_be_bytes_mod_order b.witness.blinding ∧
      inst.witness.merkle_path
        = (b.witness.merkle_siblings.zip b.witness.merkle_directions).map
            (fun node => (fr_from_be_bytes_mod_order node.1, node.2)) :=
  fun _ _ _ h => MembershipSnark.membership_intoV2_ok h

/-- C1 witness: the concrete record `c1AcceptedBytes` is accepted with depth
1, and the amended theorem applies to it. -/
theorem membership_v2_into_instance_validation_witness :
    MembershipSnark.MembershipInstanceV2Bytes.into_instance_with_depth
        MembershipSnark.c1AcceptedBytes = .ok (MembershipSnark.c1AcceptedData, 1) ∧
    MembershipSnark.c1AcceptedBytes.schema_version = 2 :=
  ⟨by decide,
   (membership_v2_into_instance_validation MembershipSnark.c1AcceptedBytes
      MembershipSnark.c1AcceptedData 1 (by decide)).1⟩

/-- C2: for every SNARK backend satisfying the Groth16 completeness
interface, every hash function and every valid membership instance of depth
`d`, the proof produced by `prove_membership` under the proving key from
`setup_membership_with_depth` at depth `d` verifies: `verify_membership`
with the corresponding verifying key and the public inputs
`[root, commitment]` returns `true`. -/
theorem membership_prove_verify_completeness :
    ∀ (B : MembershipSnark.SnarkBackend) (H : List Fr → Fr) (d : ℕ)
      (inst : MembershipSnark.MembershipInstance) (r1 r2 : B.RNG),
      inst.valid H d →
      ∃ (pk : B.PK) (proof : B.Proof),
        MembershipSnark.setup_membership_with_depth B H r1 d = .ok pk ∧
        MembershipSnark.prove_membership B H pk inst r2 = .ok proof ∧
        MembershipSnark.verify_membership B (B.vk_of pk) inst.public_inputs proof
          = true := by
  intro B H d inst r1 r2 hvalid
  obtain ⟨hd, hlen, hcom, hroot⟩ := hvalid
  have hrepne : List.replicate d ((0 : Fr), false) ≠ [] := by
    intro hc
    have := congrArg List.length hc
    simp at this
    omega
  have hsetupcs := MembershipSnark.generate_constraints_somes H 0 0 0 0 d
    (List.replicate d ((0 : Fr), false)) (by simp) hrepne
  have hrep : List.replicate d ((some (0 : Fr)), (some false))
      = (List.replicate d ((0 : Fr), false)).map
          (fun node => (some node.1, some node.2)) := by
    simp
  have hne : inst.witness.merkle_path ≠ [] := by
    intro hc
    rw [hc] at hlen
    simp at hlen
    omega
  have hprovecs := MembershipSnark.generate_constraints_somes H
    inst.public_inputs.root inst.public_inputs.commitment
    inst.witness.identity_scalar inst.witness.blinding
    inst.witness.merkle_path.length inst.witness.merkle_path rfl hne
  have h1 : MembershipSnark.commitment_hash H inst.witness.identity_scalar
      inst.witness.blinding = inst.public_inputs.commitment := hcom.symm
  refine ⟨B.generate_random_parameters
      (MembershipSnark.SynthesizedCS.mk d [(0 : Fr), 0]
        [(MembershipSnark.commitment_hash H 0 0, (0 : Fr)),
         (MembershipSnark.merkle_fold H
            (MembershipSnark.leaf_hash H (MembershipSnark.commitment_hash H 0 0))
            (List.replicate d ((0 : Fr), false)), (0 : Fr))]) r1,
    B.create_random_proof
      (MembershipSnark.SynthesizedCS.mk inst.witness.merkle_path.length
        [inst.public_inputs.root, inst.public_inputs.commitment]
        [(MembershipSnark.commitment_hash H inst.witness.identity_scalar
            inst.witness.blinding, inst.public_inputs.commitment),
         (MembershipSnark.merkle_fold H
            (MembershipSnark.leaf_hash H (MembershipSnark.commitment_hash H
              inst.witness.identity_scalar inst.witness.blinding))
            inst.witness.merkle_path,
          inst.public_inputs.root)])
      (B.generate_random_parameters
        (MembershipSnark.SynthesizedCS.mk d [(0 : Fr), 0]
          [(MembershipSnark.commitment_hash H 0 0, (0 : Fr)),
           (MembershipSnark.merkle_fold H
              (MembershipSnark.leaf_hash H (MembershipSnark.commitment_hash H 0 0))
              (List.replicate d ((0 : Fr), false)), (0 : Fr))]) r1) r2,
    ?_, ?_, ?_⟩
  · unfold MembershipSnark.setup_membership_with_depth
    rw [hrep, hsetupcs]
    rfl
  · unfold MembershipSnark.prove_membership MembershipSnark.build_circuit
    rw [hprovecs]
    rfl
  · have hsat : (MembershipSnark.SynthesizedCS.mk inst.witness.merkle_path.length
        [inst.public_inputs.root, inst.public_inputs.commitment]
        [(MembershipSnark.commitment_hash H inst.witness.identity_scalar
            inst.witness.blinding, inst.public_inputs.commitment),
         (MembershipSnark.merkle_fold H
            (MembershipSnark.leaf_hash H (MembershipSnark.commitment_hash H
              inst.witness.identity_scalar inst.witness.blinding))
            inst.witness.merkle_path,
          inst.public_inputs.root)]).is_satisfied = true := by
      simp [MembershipSnark.SynthesizedCS.is_satisfied, h1, ← hroot]
    have hshape : d = inst.witness.merkle_path.length := hlen.symm
    have hcomplete := B.completeness
      (MembershipSnark.SynthesizedCS.mk d [(0 : Fr), 0]
        [(MembershipSnark.commitment_hash H 0 0, (0 : Fr)),
         (MembershipSnark.merkle_fold H
            (MembershipSnark.leaf_hash H (MembershipSnark.commitment_hash H 0 0))
            (List.replicate d ((0 : Fr), false)), (0 : Fr))])
      (MembershipSnark.SynthesizedCS.mk inst.witness.merkle_path.length
        [inst.public_inputs.root, inst.public_inputs.commitment]
        [(MembershipSnark.commitment_hash H inst.witness.identity_scalar
            inst.witness.blinding, inst.public_inputs.commitment),
         (MembershipSnark.merkle_fold H
            (MembershipSnark.leaf_hash H (MembershipSnark.commitment_hash H
              inst.witness.identity_scalar inst.witness.blinding))
            inst.witness.merkle_path,
          inst.public_inputs.root)])
      r1 r2 hsat hshape
    exact hcomplete

/-- C2 witness: with the trivial backend and `sumHash`, the concrete valid
depth-1 instance proves and verifies end to end. -/
theorem membership_prove_verify_completeness_witness :
    ∃ (pk : MembershipSnark.trivialBackend.PK)
      (proof : MembershipSnark.trivialBackend.Proof),
      MembershipSnark.setup_membership_with_depth MembershipSnark.trivialBackend
          sumHash () 1 = .ok pk ∧
      MembershipSnark.prove_membership MembershipSnark.trivialBackend sumHash pk
          MembershipSnark.c2ValidInstance () = .ok proof ∧
      MembershipSnark.verify_membership MembershipSnark.trivialBackend
          (MembershipSnark.trivialBackend.vk_of pk)
          MembershipSnark.c2ValidInstance.public_inputs proof = true :=
  membership_prove_verify_completeness MembershipSnark.trivialBackend sumHash 1
    MembershipSnark.c2ValidInstance () () ⟨Nat.one_pos, rfl, rfl, rfl⟩
